import Mathlib

/-!
Verification of the multi-provider AI generation gateway of the
Deepwork backend.  The definitions below are a shallow embedding of
`app/services/ai_providers/claude_provider.py`,
`app/services/ai_providers/ollama_provider.py`,
`app/services/ai_providers/base_provider.py` and
`app/services/ai_service.py`.  Network I/O is made explicit: every
function takes the transport's behaviour (the sequence of HTTP outcomes
or raw stream lines) as an argument, and the `time.sleep` calls of the
retry loop are returned as an explicit list of delays.
-/

/-- The body of one HTTP response, as the Claude provider inspects it:
`status` is `response.status_code`; `contentText` is
`data["content"][0]["text"]` when that path exists in the JSON body
(`none` models a `KeyError`/`IndexError`); `errorMsg` is the message the
code extracts for non-retryable errors
(`error_data.get('error', {}).get('message', response.text)`). -/
structure HttpResponse where
  status : Nat
  contentText : Option String
  errorMsg : String
deriving DecidableEq, Repr

/-- Outcome of one `self.session.post(...)` call: either an HTTP response
or a raised `requests.exceptions.RequestException`. -/
inductive HttpAttempt where
  | response (resp : HttpResponse)
  | netError (msg : String)
deriving DecidableEq, Repr

/-- The errors `ClaudeProvider.generate` can raise, one constructor per
`raise Exception(...)` site in the source. -/
inductive GenError where
  | notConfigured
  | apiError (status : Nat) (msg : String)
  | networkError (msg : String)
  | unavailable
  | invalidFormat (msg : String)
deriving DecidableEq, Repr

/-- `self.max_retries = 3` in `ClaudeProvider.__init__`. -/
def maxRetries : Nat := 3

/-- `self.retry_delay = 2` in `ClaudeProvider.__init__`. -/
def baseRetryDelay : Nat := 2

/-- The `for attempt in range(self.max_retries)` loop of
`ClaudeProvider.generate`.  `remaining` counts the attempts still
allowed (the loop starts with `maxRetries`), `i` is the index the
transport is consulted at, `d` is the current `retry_delay`.  Returns
the loop's outcome together with the list of `time.sleep` durations in
the order they happened.  Branches, in the source's order:
status 200 breaks with the response; 429 sleeps `d` and doubles `d`;
status ≥ 500 sleeps `d` (no doubling); any other status raises
`API Error` immediately; a `RequestException` sleeps `d` and continues
unless this was the last attempt, in which case it raises
`Claude Network Error`; a loop that exhausts all attempts raises
`Service unavailable after retries (Rate Limit or Network).`. -/
def claudeAttemptLoop (transport : Nat → HttpAttempt) :
    Nat → Nat → Nat → Except GenError HttpResponse × List Nat
  | 0, _, _ => (Except.error GenError.unavailable, [])
  | (remaining + 1), i, d =>
    match transport i with
    | HttpAttempt.netError msg =>
        if remaining = 0 then
          (Except.error (GenError.networkError msg), [])
        else
          let r := claudeAttemptLoop transport remaining (i + 1) d
          (r.1, d :: r.2)
    | HttpAttempt.response resp =>
        if resp.status = 200 then
          (Except.ok resp, [])
        else if resp.status = 429 then
          let r := claudeAttemptLoop transport remaining (i + 1) (d * 2)
          (r.1, d :: r.2)
        else if 500 ≤ resp.status then
          let r := claudeAttemptLoop transport remaining (i + 1) d
          (r.1, d :: r.2)
        else
          (Except.error (GenError.apiError resp.status resp.errorMsg), [])

/-- `BaseAIProvider.is_configured`: `api_key is not None and api_key != ""`. -/
def isConfigured (apiKey : Option String) : Prop :=
  apiKey ≠ none ∧ apiKey ≠ some ""

instance (apiKey : Option String) : Decidable (isConfigured apiKey) := by
  unfold isConfigured; infer_instance

/-- Python's default `str.strip()`: drop leading and trailing
whitespace characters. -/
def pyStrip (s : String) : String :=
  ⟨((s.data.dropWhile Char.isWhitespace).reverse.dropWhile
      Char.isWhitespace).reverse⟩

/-- `ClaudeProvider.generate`.  Raises when not configured; otherwise
runs the retry loop; on a 200 response extracts
`data["content"][0]["text"]` and returns it `.strip()`-ped, raising
`Invalid response format` when the path is missing.  The second
component is the list of sleep durations. -/
def claudeGenerate (apiKey : Option String) (transport : Nat → HttpAttempt) :
    Except GenError String × List Nat :=
  if isConfigured apiKey then
    match claudeAttemptLoop transport maxRetries 0 baseRetryDelay with
    | (Except.error e, sleeps) => (Except.error e, sleeps)
    | (Except.ok resp, sleeps) =>
        match resp.contentText with
        | some t => (Except.ok (pyStrip t), sleeps)
        | none => (Except.error (GenError.invalidFormat resp.errorMsg), sleeps)
  else
    (Except.error GenError.notConfigured, [])

/-- A finite transcript as a transport function; indices past the end
behave as a network failure (the tests below never reach them). -/
def transportOf (events : List HttpAttempt) : Nat → HttpAttempt :=
  fun i => events.getD i (HttpAttempt.netError "transport exhausted")

/-- Retryable HTTP outcomes per the source: status 429 or status ≥ 500. -/
def retryableHttp : HttpAttempt → Prop
  | HttpAttempt.response r => r.status = 429 ∨ 500 ≤ r.status
  | HttpAttempt.netError _ => False

/-!  Streaming: `ClaudeProvider.generate_stream` iterates
`response.iter_lines()` and classifies each decoded line.  A line is
embedded already classified — the classification mirrors, in order, the
tests the Python code performs on the raw string. -/

/-- The JSON payload of one `data: `-prefixed SSE line, as the code
reads it: `type` is `chunk_data.get('type')` (absent modelled as `""`,
which the code's string comparisons also reject), `deltaType` is
`chunk_data.get('delta', {}).get('type')`, and `deltaText` is
`chunk_data.get('delta', {}).get('text', '')`. -/
structure ClaudeEvent where
  type : String
  deltaType : String
  deltaText : String
deriving DecidableEq, Repr

/-- One decoded line of the SSE stream:
`empty` — falsy line (`if not line: continue`);
`noData s` — non-empty line without the `data: ` marker (skipped);
`doneMarker` — `data: [DONE]` (break before JSON parsing);
`malformed s` — `data: `-prefixed payload on which `json.loads` raises
`JSONDecodeError` (skipped by `continue`);
`event e` — `data: `-prefixed payload parsed into a JSON object. -/
inductive SSELine where
  | empty
  | noData (s : String)
  | doneMarker
  | malformed (s : String)
  | event (e : ClaudeEvent)
deriving DecidableEq, Repr

/-- What the transport delivers next: a line, or a
`requests.exceptions.RequestException` raised mid-iteration. -/
inductive StreamItem where
  | line (l : SSELine)
  | transportFail (msg : String)
deriving DecidableEq, Repr

/-- How one streaming call ends: normal completion (loop finished or
`break`), or the `Claude Streaming Error` exception. -/
inductive StreamEnd where
  | done
  | error (msg : String)
deriving DecidableEq, Repr

/-- The fragment a line yields, if any: only an event with
`type == 'content_block_delta'`, `delta.type == 'text_delta'` and a
non-empty `delta.text` is yielded (`if text: yield text`). -/
def fragOfLine : SSELine → Option String
  | SSELine.event e =>
      if e.type = "content_block_delta" then
        if e.deltaType = "text_delta" then
          if e.deltaText = "" then none else some e.deltaText
        else none
      else none
  | _ => none

/-- Lines on which the loop executes `break`: the `[DONE]` marker and a
parsed event with `type == 'message_stop'`. -/
def isStop : SSELine → Bool
  | SSELine.doneMarker => true
  | SSELine.event e => e.type = "message_stop"
  | _ => false

/-- The SSE consumption loop of `ClaudeProvider.generate_stream`:
processes items in arrival order, yielding fragments as they decode;
a stop line ends the stream normally; a transport failure ends it with
the streaming error, the fragments already yielded standing. -/
def claudeRelay : List StreamItem → List String × StreamEnd
  | [] => ([], StreamEnd.done)
  | StreamItem.transportFail msg :: _ => ([], StreamEnd.error msg)
  | StreamItem.line l :: rest =>
      if isStop l then ([], StreamEnd.done)
      else
        match fragOfLine l with
        | some t =>
            let r := claudeRelay rest
            (t :: r.1, r.2)
        | none => claudeRelay rest

/-- `ClaudeProvider.generate_stream`: raises when not configured, raises
on a non-200 initial status, otherwise relays the SSE lines.  The result
is the list of yielded fragments in yield order, paired with how the
generator terminated. -/
def claudeGenerateStream (apiKey : Option String) (initialStatus : Nat)
    (items : List StreamItem) : List String × StreamEnd :=
  if isConfigured apiKey then
    if initialStatus = 200 then claudeRelay items
    else ([], StreamEnd.error "Claude API Error")
  else ([], StreamEnd.error "CLAUDE_API_KEY not set")

/-- A `content_block_delta`/`text_delta` stream item carrying `t`. -/
def deltaItem (t : String) : StreamItem :=
  StreamItem.line (SSELine.event
    { type := "content_block_delta", deltaType := "text_delta", deltaText := t })

/-- The fragments a list of items carries: the `text_delta` texts of its
lines, in arrival order. -/
def fragsOf : List StreamItem → List String
  | [] => []
  | StreamItem.line l :: rest =>
      match fragOfLine l with
      | some t => t :: fragsOf rest
      | none => fragsOf rest
  | StreamItem.transportFail _ :: rest => fragsOf rest

/-- Items that neither stop the stream nor fail the transport. -/
def cleanItem : StreamItem → Bool
  | StreamItem.line l => !(isStop l)
  | StreamItem.transportFail _ => false

/-- `BaseAIProvider.generate_stream`, the default single-shot adapter:
`result = self.generate(prompt)` then `yield result`. -/
def baseGenerateStream (generate : String → String) (prompt : String) :
    List String :=
  [generate prompt]

/-!  Status probes (`check_status`). -/

/-- Outcome of the single probe request a `check_status` would make. -/
inductive ProbeResult where
  | response (status : Nat)
  | exception (msg : String)
deriving DecidableEq, Repr

/-- `ClaudeProvider.check_status`: `"not configured"` without touching
the network when unconfigured; otherwise one POST, mapping 200 → `ok`,
429 → `rate_limited`, 401 → `invalid_key`, any other status → `error`;
any exception (the `except Exception` clause) → `error`. -/
def claudeCheckStatus (apiKey : Option String) (probe : ProbeResult) :
    String :=
  if isConfigured apiKey then
    match probe with
    | ProbeResult.response s =>
        if s = 200 then "ok"
        else if s = 429 then "rate_limited"
        else if s = 401 then "invalid_key"
        else "error"
    | ProbeResult.exception _ => "error"
  else "not configured"

/-- `OllamaProvider.check_status`: always issues
`GET {base_url}/api/tags`; 200 → `ok`, any other status → `error`, and
the bare `except:` maps any exception to `not configured`.  The
provider holds no credential at all (its `__init__` never calls
`super().__init__`). -/
def ollamaCheckStatus (probe : ProbeResult) : String :=
  match probe with
  | ProbeResult.response s => if s = 200 then "ok" else "error"
  | ProbeResult.exception _ => "not configured"

/-!  `AIService` dispatch (`app/services/ai_service.py`). -/

/-- The attribute state of an `AIService` after `__init__(use_ollama)`:
exactly one of the two provider attributes is ever assigned
(`self.ollama` under `use_ollama`, `self.claude` otherwise). -/
structure AIService where
  use_ollama : Bool
  ollamaInit : Bool
  claudeInit : Bool
deriving DecidableEq, Repr

/-- `AIService.__init__`. -/
def mkAIService (use_ollama : Bool) : AIService :=
  { use_ollama := use_ollama, ollamaInit := use_ollama,
    claudeInit := !use_ollama }

/-- Where a dispatching method lands: on the Ollama provider, on the
Claude provider, or on an `AttributeError` (the attribute accessed was
never assigned by `__init__`). -/
inductive Dispatch where
  | toOllama
  | toClaude
  | attributeError
deriving DecidableEq, Repr

/-- The routing of `AIService.generate(prompt, provider)`:
`if self.use_ollama or provider == 'ollama': self.ollama...` else
`self.claude...`. -/
def AIService.generateDispatch (s : AIService) (provider : String) :
    Dispatch :=
  if s.use_ollama || provider = "ollama" then
    if s.ollamaInit then Dispatch.toOllama else Dispatch.attributeError
  else
    if s.claudeInit then Dispatch.toClaude else Dispatch.attributeError

/-- The routing of `AIService.generate_stream(prompt, provider, system_prompt)`
— textually the same condition as `generate`. -/
def AIService.streamDispatch (s : AIService) (provider : String) :
    Dispatch :=
  if s.use_ollama || provider = "ollama" then
    if s.ollamaInit then Dispatch.toOllama else Dispatch.attributeError
  else
    if s.claudeInit then Dispatch.toClaude else Dispatch.attributeError

/-- The default value of the `provider` parameter in both methods. -/
def defaultProviderArg : String := "claude"

/-!  `get_ai_service` under concurrent first use.  The body
`if _ai_service is None: _ai_service = AIService(...)` is an unguarded
check-then-set on a module global; it is modelled as two threads, each
executing two atomic steps: (1) read the global and remember whether it
was `None`; (2) if it was, construct an instance and assign it.  A
schedule lists which thread takes the next step. -/

/-- Shared global plus each thread's progress: `slot` is `_ai_service`
(instances numbered by construction order), `constructed` counts
constructions, `pc`/`saw` record each thread's program counter and the
result of its `is None` check. -/
structure RaceState where
  slot : Option Nat
  constructed : Nat
  pc0 : Nat
  saw0 : Bool
  pc1 : Nat
  saw1 : Bool
deriving DecidableEq, Repr

/-- `_ai_service = None` before the first call; neither thread started. -/
def initRace : RaceState :=
  { slot := none
    constructed := 0
    pc0 := 0
    saw0 := false
    pc1 := 0
    saw1 := false }

/-- One scheduled step of thread `t` (`false` = thread 0). -/
def raceStep (s : RaceState) (t : Bool) : RaceState :=
  if t = false then
    if s.pc0 = 0 then { s with pc0 := 1, saw0 := s.slot.isNone }
    else if s.pc0 = 1 then
      if s.saw0 then
        { s with
          pc0 := 2
          slot := some s.constructed
          constructed := s.constructed + 1 }
      else { s with pc0 := 2 }
    else s
  else
    if s.pc1 = 0 then { s with pc1 := 1, saw1 := s.slot.isNone }
    else if s.pc1 = 1 then
      if s.saw1 then
        { s with
          pc1 := 2
          slot := some s.constructed
          constructed := s.constructed + 1 }
      else { s with pc1 := 2 }
    else s

/-- Run a schedule from the initial state. -/
def runRace (sched : List Bool) : RaceState :=
  sched.foldl raceStep initRace

/-!  Helper lemmas. -/

/-- Unfolding of the retry loop at a positive fuel value. -/
theorem claudeAttemptLoop_succ (transport : Nat → HttpAttempt)
    (n i d : Nat) :
    claudeAttemptLoop transport (n + 1) i d =
      match transport i with
      | HttpAttempt.netError msg =>
          if n = 0 then (Except.error (GenError.networkError msg), [])
          else
            let r := claudeAttemptLoop transport n (i + 1) d
            (r.1, d :: r.2)
      | HttpAttempt.response resp =>
          if resp.status = 200 then (Except.ok resp, [])
          else if resp.status = 429 then
            let r := claudeAttemptLoop transport n (i + 1) (d * 2)
            (r.1, d :: r.2)
          else if 500 ≤ resp.status then
            let r := claudeAttemptLoop transport n (i + 1) d
            (r.1, d :: r.2)
          else (Except.error (GenError.apiError resp.status resp.errorMsg), []) :=
  rfl

/-- A key that is present and non-empty passes `is_configured`. -/
theorem isConfigured_some (k : String) (hk : k ≠ "") :
    isConfigured (some k) := by
  constructor
  · simp
  · simpa using hk

/-- When every attempt's outcome is retryable, the loop exhausts its
fuel and ends in the generic `Service unavailable` error, whatever the
statuses and reasons encountered were. -/
theorem claudeAttemptLoop_allRetryable (transport : Nat → HttpAttempt)
    (hall : ∀ j, retryableHttp (transport j)) :
    ∀ n i d, (claudeAttemptLoop transport n i d).1
      = Except.error GenError.unavailable := by
  intro n
  induction n with
  | zero => intro i d; rfl
  | succ m ih =>
      intro i d
      have h := hall i
      rw [claudeAttemptLoop_succ]
      cases htr : transport i with
      | netError msg => rw [htr] at h; exact absurd h (by simp [retryableHttp])
      | response r =>
          rw [htr] at h
          simp only [retryableHttp] at h
          rcases h with h | h
          · have h200 : r.status ≠ 200 := by omega
            simp [h200, h, ih]
          · have h200 : r.status ≠ 200 := by omega
            have h429 : r.status ≠ 429 := by omega
            simp [h200, h429, h, ih]

/-- A `text_delta` item with non-empty text yields its fragment and the
relay continues. -/
theorem claudeRelay_delta (t : String) (ht : t ≠ "")
    (rest : List StreamItem) :
    claudeRelay (deltaItem t :: rest)
      = (t :: (claudeRelay rest).1, (claudeRelay rest).2) := by
  simp [claudeRelay, deltaItem, isStop, fragOfLine, ht]

/-- Relaying a block of non-stopping, non-failing items yields exactly
their fragments, in order, followed by whatever the tail produces. -/
theorem claudeRelay_append (pre : List StreamItem)
    (hp : pre.all cleanItem = true) (items : List StreamItem) :
    claudeRelay (pre ++ items)
      = (fragsOf pre ++ (claudeRelay items).1, (claudeRelay items).2) := by
  induction pre with
  | nil => simp [fragsOf]
  | cons a l ih =>
      rw [List.all_cons, Bool.and_eq_true] at hp
      obtain ⟨ha, hl⟩ := hp
      cases a with
      | transportFail m => simp [cleanItem] at ha
      | line lin =>
          have hstop : isStop lin = false := by
            simpa [cleanItem] using ha
          cases hfrag : fragOfLine lin with
          | none => simp [claudeRelay, hstop, hfrag, fragsOf, ih hl]
          | some t => simp [claudeRelay, hstop, hfrag, fragsOf, ih hl]

/-- Every `text_delta` item is a clean (non-stopping) item. -/
theorem cleanItem_delta (t : String) : cleanItem (deltaItem t) = true := by
  simp [cleanItem, deltaItem, isStop]

/-- A block of `text_delta` items with non-empty texts contributes
exactly those texts as fragments. -/
theorem fragsOf_deltas (ts : List String) (h : ∀ t ∈ ts, t ≠ "") :
    fragsOf (ts.map deltaItem) = ts := by
  induction ts with
  | nil => rfl
  | cons a l ih =>
      have ha : a ≠ "" := h a (by simp)
      have ihl := ih (fun t ht => h t (by simp [ht]))
      simp [fragsOf, deltaItem, fragOfLine, ha, ihl]

/-- A block of `text_delta` items is entirely clean. -/
theorem all_clean_deltas (ts : List String) :
    (ts.map deltaItem).all cleanItem = true := by
  induction ts with
  | nil => rfl
  | cons a l ih => simp [cleanItem_delta, ih]

/-!  Claim theorems: retry policy (`ClaudeProvider.generate`). -/

/-- C1 (counterexample): the claim's final clause says the inter-retry
delay doubles after each retryable failure.  On the transcript
500, 500, 200 — two retryable failures — the recorded sleeps are
`[2, 2]`: the delay after the second retryable failure is still the
base delay, not its double `[2, 4]`.  Doubling happens only in the 429
branch of the source. -/
theorem C1_counterexample :
    (claudeGenerate (some "key")
        (transportOf [HttpAttempt.response ⟨500, none, "err"⟩,
          HttpAttempt.response ⟨500, none, "err"⟩,
          HttpAttempt.response ⟨200, some "text", ""⟩])).2 = [2, 2] ∧
    ([2, 2] : List Nat) ≠ [2, 4] := by
  constructor
  · rfl
  · decide

/-- C1 (amended): a synchronous generate call whose transport returns
HTTP 429 exactly twice and then HTTP 200 succeeds with the response
text (stripped), having slept exactly `base_delay = 2` after the first
429 and `2 × base_delay = 4` after the second, under the fixed attempt
ceiling `max_retries = 3`; the delay doubles after each 429 but stays
at the base delay after HTTP ≥ 500 failures (third conjunct: an
all-500 transcript sleeps `[2, 2, 2]`). -/
theorem C1_retry_schedule (k t em0 em1 em2 : String)
    (transport : Nat → HttpAttempt) (hk : k ≠ "")
    (h0 : transport 0 = HttpAttempt.response ⟨429, none, em0⟩)
    (h1 : transport 1 = HttpAttempt.response ⟨429, none, em1⟩)
    (h2 : transport 2 = HttpAttempt.response ⟨200, some t, ""⟩) :
    claudeGenerate (some k) transport
      = (Except.ok (pyStrip t), [baseRetryDelay, 2 * baseRetryDelay]) ∧
    maxRetries = 3 ∧
    (claudeGenerate (some k)
        (fun _ => HttpAttempt.response ⟨500, none, em2⟩)).2
      = [baseRetryDelay, baseRetryDelay, baseRetryDelay] := by
  have hcfg := isConfigured_some k hk
  have e3 : claudeAttemptLoop transport 1 2 8
      = (Except.ok ⟨200, some t, ""⟩, []) := by
    rw [show (1 : Nat) = 0 + 1 from rfl, claudeAttemptLoop_succ, h2]
    rfl
  have e2 : claudeAttemptLoop transport 2 1 4
      = (Except.ok ⟨200, some t, ""⟩, [4]) := by
    rw [show (2 : Nat) = 1 + 1 from rfl, claudeAttemptLoop_succ, h1]
    simp [e3]
  have e1 : claudeAttemptLoop transport 3 0 2
      = (Except.ok ⟨200, some t, ""⟩, [2, 4]) := by
    rw [show (3 : Nat) = 2 + 1 from rfl, claudeAttemptLoop_succ, h0]
    simp [e2]
  refine ⟨?_, rfl, ?_⟩
  · unfold claudeGenerate
    rw [if_pos hcfg]
    rw [show maxRetries = 3 from rfl, show baseRetryDelay = 2 from rfl, e1]
  · unfold claudeGenerate
    rw [if_pos hcfg]
    rfl

/-- C1 (witness): the amended theorem applied to a concrete
transcript. -/
theorem C1_retry_schedule_witness :
    claudeGenerate (some "key")
      (transportOf [HttpAttempt.response ⟨429, none, "r1"⟩,
        HttpAttempt.response ⟨429, none, "r2"⟩,
        HttpAttempt.response ⟨200, some "answer", ""⟩])
      = (Except.ok "answer", [2, 4]) := by
  have h := C1_retry_schedule "key" "answer" "r1" "r2" "x"
    (transportOf [HttpAttempt.response ⟨429, none, "r1"⟩,
      HttpAttempt.response ⟨429, none, "r2"⟩,
      HttpAttempt.response ⟨200, some "answer", ""⟩])
    (by decide) rfl rfl rfl
  rw [h.1]
  rfl

/-- C5: a synchronous generate call whose first attempt returns a
status that is neither 200 nor 429 nor ≥ 500 fails at once with the
captured status and message, sleeping zero times — whatever the
transport would have answered on later attempts.  Conversely (last
three conjuncts) a 429, a 503, and a network failure each get a
retry: a second attempt returning 200 succeeds after a single base
delay. -/
theorem C5_nonretryable_immediate (k : String) (hk : k ≠ "")
    (r : HttpResponse) (h200 : r.status ≠ 200) (h429 : r.status ≠ 429)
    (h5xx : r.status < 500) (transport : Nat → HttpAttempt)
    (h0 : transport 0 = HttpAttempt.response r) :
    claudeGenerate (some k) transport
      = (Except.error (GenError.apiError r.status r.errorMsg), []) ∧
    (∀ t em, claudeGenerate (some k)
        (transportOf [HttpAttempt.response ⟨429, none, em⟩,
          HttpAttempt.response ⟨200, some t, ""⟩])
      = (Except.ok (pyStrip t), [2])) ∧
    (∀ t em, claudeGenerate (some k)
        (transportOf [HttpAttempt.response ⟨503, none, em⟩,
          HttpAttempt.response ⟨200, some t, ""⟩])
      = (Except.ok (pyStrip t), [2])) ∧
    (∀ t em, claudeGenerate (some k)
        (transportOf [HttpAttempt.netError em,
          HttpAttempt.response ⟨200, some t, ""⟩])
      = (Except.ok (pyStrip t), [2])) := by
  have hcfg := isConfigured_some k hk
  have h5xx' : ¬ (500 ≤ r.status) := by omega
  refine ⟨?_, ?_, ?_, ?_⟩
  · unfold claudeGenerate
    rw [if_pos hcfg]
    rw [show maxRetries = 2 + 1 from rfl, show baseRetryDelay = 2 from rfl,
      claudeAttemptLoop_succ, h0]
    simp [h200, h429, h5xx']
  · intro t em
    unfold claudeGenerate
    rw [if_pos hcfg]
    rfl
  · intro t em
    unfold claudeGenerate
    rw [if_pos hcfg]
    rfl
  · intro t em
    unfold claudeGenerate
    rw [if_pos hcfg]
    rfl

/-- C5 (witness): the theorem applied at HTTP 404. -/
theorem C5_nonretryable_immediate_witness :
    claudeGenerate (some "key")
      (transportOf [HttpAttempt.response ⟨404, none, "not found"⟩])
      = (Except.error (GenError.apiError 404 "not found"), []) :=
  (C5_nonretryable_immediate "key" (by decide) ⟨404, none, "not found"⟩
    (by decide) (by decide) (by decide)
    (transportOf [HttpAttempt.response ⟨404, none, "not found"⟩]) rfl).1

/-- C6 (counterexample): the claim says exhaustion raises the most
specific error encountered, preferring the captured HTTP status
reason.  A transcript answering 429 with reason `rate limited` on all
three attempts exhausts the budget, and the raised error is the
generic `Service unavailable after retries` one, which carries neither
the 429 status nor its reason. -/
theorem C6_counterexample :
    (claudeGenerate (some "key")
        (fun _ => HttpAttempt.response ⟨429, none, "rate limited"⟩)).1
      = Except.error GenError.unavailable ∧
    (∀ s m, GenError.unavailable ≠ GenError.apiError s m) := by
  constructor
  · rfl
  · intro s m
    simp

/-- C6 (amended): on exhaustion the raised error is generic, not the
captured status reason: whenever all attempts fail retryably at the
HTTP level (429 or ≥ 500), the call ends with the generic
`Service unavailable after retries (Rate Limit or Network).` error,
discarding every captured status and reason; only when the final
attempt fails at the network level is that network error's own message
raised (second conjunct). -/
theorem C6_exhaustion_generic (k : String) (hk : k ≠ "")
    (transport : Nat → HttpAttempt)
    (hall : ∀ j, retryableHttp (transport j)) :
    (claudeGenerate (some k) transport).1
      = Except.error GenError.unavailable ∧
    (∀ m, (claudeGenerate (some k) (fun _ => HttpAttempt.netError m)).1
      = Except.error (GenError.networkError m)) := by
  have hcfg := isConfigured_some k hk
  constructor
  · have hloop := claudeAttemptLoop_allRetryable transport hall
      maxRetries 0 baseRetryDelay
    unfold claudeGenerate
    rw [if_pos hcfg]
    rcases hres : claudeAttemptLoop transport maxRetries 0 baseRetryDelay
      with ⟨res, sleeps⟩
    rw [hres] at hloop
    have hr : res = Except.error GenError.unavailable := hloop
    subst hr
    rfl
  · intro m
    unfold claudeGenerate
    rw [if_pos hcfg]
    rfl

/-- C6 (witness): exhaustion on three 503 responses ends in the
generic unavailability error. -/
theorem C6_exhaustion_generic_witness :
    (claudeGenerate (some "key")
        (fun _ => HttpAttempt.response ⟨503, none, "server error"⟩)).1
      = Except.error GenError.unavailable := by
  have h := C6_exhaustion_generic "key" (by decide)
    (fun _ => HttpAttempt.response ⟨503, none, "server error"⟩)
    (fun j => by simp [retryableHttp])
  exact h.1

/-!  Claim theorems: streaming (`ClaudeProvider.generate_stream`,
`BaseAIProvider.generate_stream`). -/

/-- C2 (counterexample): stream-invariance fails on whitespace.  For
the response text `" hi "`, the streaming call yields the single
fragment `" hi "` — whose concatenation is `" hi "` — while the
synchronous call on the equivalent non-streaming transcript returns
the stripped text `"hi"`, and the two differ. -/
theorem C2_counterexample :
    (claudeGenerateStream (some "key") 200
        [deltaItem " hi ", StreamItem.line SSELine.doneMarker]).1
      = [" hi "] ∧
    String.join [" hi "] = " hi " ∧
    (claudeGenerate (some "key")
        (transportOf [HttpAttempt.response ⟨200, some " hi ", ""⟩])).1
      = Except.ok "hi" ∧
    (" hi " : String) ≠ "hi" := by
  refine ⟨rfl, rfl, rfl, by decide⟩

/-- C2 (amended): the concatenation of the fragments of a streaming
call equals the transcript's full text `T`, while the synchronous call
on the equivalent non-streaming transcript returns `T` stripped of
leading/trailing whitespace — so the two coincide exactly when `T`
carries none.  The default single-shot adapter of the base class
yields exactly one fragment equal to `generate(prompt)`, whose
concatenation is that same text. -/
theorem C2_stream_vs_sync (k T : String) (ts : List String) (hk : k ≠ "")
    (hts : ∀ t ∈ ts, t ≠ "") (hT : T = String.join ts) :
    String.join (claudeGenerateStream (some k) 200
        (ts.map deltaItem ++ [StreamItem.line SSELine.doneMarker])).1 = T ∧
    (claudeGenerate (some k)
        (transportOf [HttpAttempt.response ⟨200, some T, ""⟩])).1
      = Except.ok (pyStrip T) ∧
    (∀ g p, baseGenerateStream g p = [g p]
      ∧ String.join (baseGenerateStream g p) = g p) := by
  have hcfg := isConfigured_some k hk
  refine ⟨?_, ?_, ?_⟩
  · unfold claudeGenerateStream
    rw [if_pos hcfg]
    show String.join (claudeRelay
      (ts.map deltaItem ++ [StreamItem.line SSELine.doneMarker])).1 = T
    rw [claudeRelay_append _ (all_clean_deltas ts), fragsOf_deltas ts hts]
    show String.join (ts ++ []) = T
    rw [List.append_nil]
    exact hT.symm
  · unfold claudeGenerate
    rw [if_pos hcfg]
    rfl
  · intro g p
    exact ⟨rfl, rfl⟩

/-- C2 (witness): the amended theorem applied to a two-fragment
stream whose concatenation carries surrounding whitespace. -/
theorem C2_stream_vs_sync_witness :
    String.join (claudeGenerateStream (some "key") 200
        ([" hi", " there "].map deltaItem
          ++ [StreamItem.line SSELine.doneMarker])).1 = " hi there " ∧
    (claudeGenerate (some "key")
        (transportOf [HttpAttempt.response ⟨200, some " hi there ", ""⟩])).1
      = Except.ok "hi there" := by
  have h := C2_stream_vs_sync "key" " hi there " [" hi", " there "]
    (by decide) (by decide) (by decide)
  refine ⟨h.1, ?_⟩
  rw [h.2.1]
  rfl

/-- C3: if the transport fails after any block of non-stopping lines,
the fragments of that block — each one exactly once, in arrival
order — have already been yielded, the call ends with the stream error
(a terminal event different from normal completion), and the error
message appears nowhere among the fragments: the output's fragment
list is exactly `fragsOf pre`. -/
theorem C3_failure_after_fragments (k msg : String) (hk : k ≠ "")
    (pre rest : List StreamItem) (hp : pre.all cleanItem = true) :
    claudeGenerateStream (some k) 200
        (pre ++ StreamItem.transportFail msg :: rest)
      = (fragsOf pre, StreamEnd.error msg) ∧
    StreamEnd.error msg ≠ StreamEnd.done := by
  have hcfg := isConfigured_some k hk
  constructor
  · unfold claudeGenerateStream
    rw [if_pos hcfg]
    show claudeRelay (pre ++ StreamItem.transportFail msg :: rest)
      = (fragsOf pre, StreamEnd.error msg)
    rw [claudeRelay_append pre hp]
    show (fragsOf pre ++ [], StreamEnd.error msg) = _
    rw [List.append_nil]
  · simp

/-- C3 (witness): the transport closes after 2 of 5 fragments: both
are delivered, then the stream error is raised. -/
theorem C3_failure_after_fragments_witness :
    claudeGenerateStream (some "key") 200
        ([deltaItem "Hel", deltaItem "lo"]
          ++ StreamItem.transportFail "connection reset"
            :: [deltaItem "w", deltaItem "or", deltaItem "ld"])
      = (["Hel", "lo"], StreamEnd.error "connection reset") := by
  have h := C3_failure_after_fragments "key" "connection reset" (by decide)
    [deltaItem "Hel", deltaItem "lo"]
    [deltaItem "w", deltaItem "or", deltaItem "ld"] (by decide)
  rw [h.1]
  rfl

/-- C4 (counterexample): a malformed-JSON line is swallowed with no
observable trace: the relay's entire output — fragments and
termination — is identical with and without the malformed line, so no
diagnostic count of skipped lines is surfaced anywhere. -/
theorem C4_counterexample :
    claudeGenerateStream (some "key") 200
        (StreamItem.line (SSELine.malformed "not json")
          :: [deltaItem "hi", StreamItem.line SSELine.doneMarker])
      = claudeGenerateStream (some "key") 200
          [deltaItem "hi", StreamItem.line SSELine.doneMarker] ∧
    claudeGenerateStream (some "key") 200
        [deltaItem "hi", StreamItem.line SSELine.doneMarker]
      = (["hi"], StreamEnd.done) :=
  ⟨rfl, rfl⟩

/-- C4 (amended): line classification of the relay loop — an empty
line is ignored; a non-`data:` line is skipped; a `data:` line with
malformed JSON is skipped silently (no diagnostic count exists); the
`[DONE]` marker and a `message_stop` event terminate the stream; a
`text_delta` event with non-empty text yields its fragment
immediately. -/
theorem C4_classification :
    (∀ rest, claudeRelay (StreamItem.line SSELine.empty :: rest)
      = claudeRelay rest) ∧
    (∀ s rest, claudeRelay (StreamItem.line (SSELine.noData s) :: rest)
      = claudeRelay rest) ∧
    (∀ s rest, claudeRelay (StreamItem.line (SSELine.malformed s) :: rest)
      = claudeRelay rest) ∧
    (∀ rest, claudeRelay (StreamItem.line SSELine.doneMarker :: rest)
      = ([], StreamEnd.done)) ∧
    (∀ e rest, e.type = "message_stop" →
      claudeRelay (StreamItem.line (SSELine.event e) :: rest)
        = ([], StreamEnd.done)) ∧
    (∀ t rest, t ≠ "" →
      claudeRelay (deltaItem t :: rest)
        = (t :: (claudeRelay rest).1, (claudeRelay rest).2)) := by
  refine ⟨fun rest => rfl, fun s rest => rfl, fun s rest => rfl,
    fun rest => rfl, ?_, ?_⟩
  · intro e rest he
    simp [claudeRelay, isStop, he]
  · intro t rest ht
    exact claudeRelay_delta t ht rest

/-- C4 (witness): the classification applied to a one-delta stream. -/
theorem C4_classification_witness :
    claudeRelay [deltaItem "x"] = (["x"], StreamEnd.done) := by
  have h := C4_classification.2.2.2.2.2 "x" [] (by decide)
  simpa [claudeRelay] using h

/-!  Claim theorems: status probes, gateway routing, singleton
construction. -/

/-- C7 (counterexample): the Ollama provider holds no credential at
all, yet its `check_status` answers `"ok"` — not `"not configured"` —
when the daemon responds 200, and its answer depends on the probe's
outcome, so a network call is made despite the absent credential. -/
theorem C7_counterexample :
    ollamaCheckStatus (ProbeResult.response 200) = "ok" ∧
    ("ok" : String) ≠ "not configured" ∧
    ollamaCheckStatus (ProbeResult.response 200)
      ≠ ollamaCheckStatus (ProbeResult.exception "daemon down") := by
  refine ⟨rfl, by decide, by decide⟩

/-- C7 (amended): the Claude provider's `check_status` returns
`"not configured"` whenever the API key is absent or empty,
independently of any probe outcome (so without a network call), and
its results always lie in {ok, rate_limited, invalid_key,
not configured, error}; the Ollama provider always probes the daemon,
mapping a raised exception — not an absent credential — to
`"not configured"`, with results in {ok, error, not configured}. -/
theorem C7_status_values :
    (∀ p, claudeCheckStatus none p = "not configured") ∧
    (∀ p, claudeCheckStatus (some "") p = "not configured") ∧
    (∀ p p', claudeCheckStatus none p = claudeCheckStatus none p') ∧
    (∀ key p, claudeCheckStatus key p ∈
      (["ok", "rate_limited", "invalid_key", "not configured", "error"]
        : List String)) ∧
    (∀ m, ollamaCheckStatus (ProbeResult.exception m) = "not configured") ∧
    (∀ p, ollamaCheckStatus p ∈
      (["ok", "error", "not configured"] : List String)) := by
  refine ⟨fun p => rfl, fun p => rfl, fun p p' => rfl, ?_, fun m => rfl, ?_⟩
  · intro key p
    unfold claudeCheckStatus
    by_cases hc : isConfigured key
    · rw [if_pos hc]
      cases p with
      | response s =>
          by_cases h1 : s = 200
          · simp [h1]
          · by_cases h2 : s = 429
            · simp [h1, h2]
            · by_cases h3 : s = 401
              · simp [h1, h2, h3]
              · simp [h1, h2, h3]
      | exception m => simp
    · rw [if_neg hc]
      simp
  · intro p
    unfold ollamaCheckStatus
    cases p with
    | response s =>
        by_cases h1 : s = 200
        · simp [h1]
        · simp [h1]
    | exception m => simp

/-- C8 (counterexample): the gateway has no `UnknownProvider` failure:
a generate call naming the unregistered provider `"unknown"` on a
default (Claude-backed) service is dispatched to the Claude provider —
generation, with its network I/O, proceeds — rather than failing. -/
theorem C8_counterexample :
    AIService.generateDispatch (mkAIService false) "unknown"
      = Dispatch.toClaude ∧
    AIService.streamDispatch (mkAIService false) "unknown"
      = Dispatch.toClaude ∧
    Dispatch.toClaude ≠ Dispatch.attributeError := by
  refine ⟨rfl, rfl, by decide⟩

/-- C8 (amended): unregistered provider names are not rejected — on a
service constructed with `use_ollama=False`, every provider name other
than `"ollama"` (unrecognized ones included) routes to the Claude
provider, and the unspecified case defaults to the parameter value
`"claude"`, which also routes to Claude. -/
theorem C8_routing (p : String) (hp : p ≠ "ollama") :
    AIService.generateDispatch (mkAIService false) p = Dispatch.toClaude ∧
    AIService.streamDispatch (mkAIService false) p = Dispatch.toClaude ∧
    defaultProviderArg = "claude" ∧
    AIService.generateDispatch (mkAIService false) defaultProviderArg
      = Dispatch.toClaude := by
  refine ⟨?_, ?_, rfl, rfl⟩
  · simp [AIService.generateDispatch, mkAIService, hp]
  · simp [AIService.streamDispatch, mkAIService, hp]

/-- C8 (witness): the routing theorem applied to an unrecognized
provider name. -/
theorem C8_routing_witness :
    AIService.generateDispatch (mkAIService false) "gpt"
      = Dispatch.toClaude :=
  (C8_routing "gpt" (by decide)).1

/-- C9 (counterexample): `get_ai_service` guards nothing: the schedule
in which both first-use calls perform their `is None` check before
either assigns the global constructs two `AIService` instances, not
exactly one. -/
theorem C9_counterexample :
    (runRace [false, true, false, true]).constructed = 2 ∧
    (2 : Nat) ≠ 1 := by
  refine ⟨rfl, by decide⟩

/-- C9 (amended): the one-time construction is an unguarded
check-then-set: when the two calls run without interleaving (either
order), exactly one instance is constructed — mutual exclusion is what
the code lacks, and only interleaved schedules can duplicate the
construction. -/
theorem C9_sequential_single_construction :
    (runRace [false, false, true, true]).constructed = 1 ∧
    (runRace [true, true, false, false]).constructed = 1 ∧
    (runRace [false, false]).constructed = 1 := by
  refine ⟨rfl, rfl, rfl⟩

/-- C10: dispatch lands on the Ollama provider exactly when the
service was built with `use_ollama=True` or the provider string is
`"ollama"`, and on the Claude provider for every other string; on a
`use_ollama=False` service the `"ollama"` string hits the never-assigned
`ollama` attribute (an `AttributeError`), and a `use_ollama=True`
service never assigns its `claude` attribute. -/
theorem C10_dispatch (p : String) (hp : p ≠ "ollama") :
    AIService.generateDispatch (mkAIService true) p = Dispatch.toOllama ∧
    AIService.streamDispatch (mkAIService true) p = Dispatch.toOllama ∧
    AIService.generateDispatch (mkAIService true) "ollama"
      = Dispatch.toOllama ∧
    AIService.generateDispatch (mkAIService false) p = Dispatch.toClaude ∧
    AIService.streamDispatch (mkAIService false) p = Dispatch.toClaude ∧
    AIService.generateDispatch (mkAIService false) "ollama"
      = Dispatch.attributeError ∧
    AIService.streamDispatch (mkAIService false) "ollama"
      = Dispatch.attributeError ∧
    (mkAIService true).claudeInit = false ∧
    (mkAIService false).ollamaInit = false := by
  refine ⟨rfl, rfl, rfl, ?_, ?_, rfl, rfl, rfl, rfl⟩
  · simp [AIService.generateDispatch, mkAIService, hp]
  · simp [AIService.streamDispatch, mkAIService, hp]

/-- C10 (witness): the dispatch theorem applied to the provider name
`"mistral"`. -/
theorem C10_dispatch_witness :
    AIService.generateDispatch (mkAIService true) "mistral"
      = Dispatch.toOllama ∧
    AIService.generateDispatch (mkAIService false) "mistral"
      = Dispatch.toClaude :=
  ⟨(C10_dispatch "mistral" (by decide)).1,
    (C10_dispatch "mistral" (by decide)).2.2.2.1⟩
